import Mathlib

/-!
Verification of the post-login redirect resolver and the credential
submission handlers of `src/pages/Login.tsx`.

The page's logic consists of three pieces:
* a `useEffect` that, once auth state is known and a user is present,
  reads the `postLoginRedirect` key from `sessionStorage`, computes a
  role-based default target, removes the key when a truthy hint was
  found, and navigates with `replace: true`;
* an `onSubmit` handler that awaits `login(email, password)` and
  classifies failures by case-insensitive substring match on the thrown
  error message, always clearing the busy flag in a `finally` block;
* a `handleGoogleSignIn` handler that delegates to the provider and
  only clears the busy flag when the provider call throws.
-/

namespace Login

/-- Ambient auth state observed from the auth context:
`user`, `isAdmin`, `loading` (called `authLoading` in the source). -/
structure AuthStatus where
  user : Option String
  isAdmin : Bool
  loading : Bool
deriving DecidableEq, Repr

/-- Tab-scoped transient key-value storage (`sessionStorage`),
modelled as an association list of key/value pairs. -/
def Storage := List (String × String)
deriving DecidableEq, Repr

/-- `sessionStorage.getItem(k)`: the first value stored under `k`,
or `none` when the key is absent (JS `null`). -/
def Storage.getItem : Storage → String → Option String
  | [], _ => none
  | (k', v) :: rest, k => if k' = k then some v else Storage.getItem rest k

/-- `sessionStorage.removeItem(k)`: drop every entry whose key is `k`. -/
def Storage.removeItem : Storage → String → Storage
  | [], _ => []
  | (k', v) :: rest, k =>
    if k' = k then Storage.removeItem rest k
    else (k', v) :: Storage.removeItem rest k

/-- JavaScript truthiness of `getItem`'s result: `null` and the empty
string are falsy, every other string is truthy. -/
def jsTruthy : Option String → Bool
  | none => false
  | some v => v != ""

/-- The navigation request `navigate(path, { replace })`. -/
structure NavigationTarget where
  path : String
  replace : Bool
deriving DecidableEq, Repr

/-- One observable `sessionStorage` operation performed by the effect. -/
inductive StorageOp where
  | read (key : String) (result : Option String)
  | remove (key : String)
deriving DecidableEq, Repr

/-- The observable result of one run of the redirect `useEffect`:
the navigation it triggers (if any), the storage state it leaves
behind, and the trace of storage operations it performed. -/
structure EffectResult where
  nav : Option NavigationTarget
  storage : Storage
  ops : List StorageOp
deriving DecidableEq, Repr

/-- The redirect `useEffect` of `Login.tsx` (lines 27-55).

If `authLoading` is set it returns at once; if a user is present it
reads `postLoginRedirect`, computes the role-based default
(`/admin` for admins, `/dashboard` otherwise), overrides the default
and removes the key when the stored hint is truthy, and navigates to
the resulting path with `replace: true`; with no user it does nothing. -/
def loginRedirectEffect (status : AuthStatus) (storage : Storage) : EffectResult :=
  if status.loading then
    { nav := none, storage := storage, ops := [] }
  else if status.user.isSome then
    let redirectPath := storage.getItem "postLoginRedirect"
    let navigateDefault := if status.isAdmin then "/admin" else "/dashboard"
    if jsTruthy redirectPath then
      { nav := some { path := redirectPath.getD "", replace := true }
        storage := storage.removeItem "postLoginRedirect"
        ops := [StorageOp.read "postLoginRedirect" redirectPath,
                StorageOp.remove "postLoginRedirect"] }
    else
      { nav := some { path := navigateDefault, replace := true }
        storage := storage
        ops := [StorageOp.read "postLoginRedirect" redirectPath] }
  else
    { nav := none, storage := storage, ops := [] }

/-- `pat` occurs at the start of the character list (second argument). -/
def startsWithChars : List Char → List Char → Bool
  | [], _ => true
  | _ :: _, [] => false
  | p :: ps, c :: cs => p == c && startsWithChars ps cs

/-- `pat` occurs somewhere inside the character list. -/
def hasInfixChars (pat : List Char) : List Char → Bool
  | [] => startsWithChars pat []
  | c :: cs => startsWithChars pat (c :: cs) || hasInfixChars pat cs

/-- JavaScript `s.includes(pat)`: substring containment. -/
def includesSubstr (s pat : String) : Bool :=
  hasInfixChars pat.data s.data

/-- Lower-case one character (ASCII range; the phrases matched by the
source are pure ASCII, so this captures `toLowerCase` on them). -/
def lowerChar (c : Char) : Char :=
  if 65 ≤ c.toNat ∧ c.toNat ≤ 90 then Char.ofNat (c.toNat + 32) else c

/-- JavaScript `s.toLowerCase()` restricted to ASCII lowering. -/
def lowerCase (s : String) : String :=
  String.mk (s.data.map lowerChar)

/-- The result of awaiting `login(email, password)`: either a boolean
return value, or a thrown error carrying an optional `message`. -/
inductive LoginResult where
  | ok (success : Bool)
  | err (message : Option String)
deriving DecidableEq, Repr

/-- The spec's outcome taxonomy for a credential submission. -/
inductive Outcome where
  | success
  | rejected
  | unverified
  | badCredentials
  | unknown
deriving DecidableEq, Repr

/-- Classification of a thrown login error, mirroring the `catch`
block: `err.message && err.message.toLowerCase().includes(...)`,
testing `email not confirmed` first, then `invalid login credentials`. -/
def classifyLoginError (message : Option String) : Outcome :=
  match message with
  | some msg =>
    if includesSubstr (lowerCase msg) "email not confirmed" then
      Outcome.unverified
    else if includesSubstr (lowerCase msg) "invalid login credentials" then
      Outcome.badCredentials
    else
      Outcome.unknown
  | none => Outcome.unknown

/-- The observable result of one run of `onSubmit`: the outcome class,
the inline error message (`setError`), the toasts raised, the final
value of the busy flag (`isLoading`), and whether the handler itself
triggered a navigation. -/
structure SubmitResult where
  outcome : Outcome
  errorMsg : Option String
  toasts : List String
  isLoading : Bool
  navigated : Bool
deriving DecidableEq, Repr

/-- The `onSubmit` handler of `Login.tsx` (lines 83-115), as a function
of the result of the awaited `login` call.

It sets the busy flag and clears the error, awaits `login`; a `false`
return sets the `Rejected` message; a thrown error is classified by
`classifyLoginError` and sets the matching message and toast; the
`finally` block clears the busy flag on every path.  The handler never
navigates itself (navigation is left to the redirect effect). -/
def onSubmit (result : LoginResult) : SubmitResult :=
  match result with
  | LoginResult.ok true =>
    { outcome := Outcome.success, errorMsg := none, toasts := []
      isLoading := false, navigated := false }
  | LoginResult.ok false =>
    { outcome := Outcome.rejected
      errorMsg := some "Login failed. Please check your credentials."
      toasts := [], isLoading := false, navigated := false }
  | LoginResult.err message =>
    match classifyLoginError message with
    | Outcome.unverified =>
      { outcome := Outcome.unverified
        errorMsg := some "Please verify your email address by clicking the link sent to your inbox before logging in."
        toasts := ["Email not verified. Please check your inbox."]
        isLoading := false, navigated := false }
    | Outcome.badCredentials =>
      { outcome := Outcome.badCredentials
        errorMsg := some "Invalid email or password. Please try again."
        toasts := ["Invalid email or password."]
        isLoading := false, navigated := false }
    | _ =>
      { outcome := Outcome.unknown
        errorMsg := some "An unexpected error occurred during login."
        toasts := ["Login failed due to an unexpected error."]
        isLoading := false, navigated := false }

/-- The result of awaiting `signInWithGoogle()`: it either returns or
throws. -/
inductive GoogleSignInResult where
  | ok
  | err
deriving DecidableEq, Repr

/-- The observable result of one run of `handleGoogleSignIn`: the
inline error message and the final value of the busy flag. -/
structure GoogleResult where
  errorMsg : Option String
  isLoading : Bool
deriving DecidableEq, Repr

/-- The `handleGoogleSignIn` handler of `Login.tsx` (lines 57-69):
it clears the error, sets the busy flag, awaits `signInWithGoogle`;
on a thrown error it sets a generic message and clears the busy flag;
on success it leaves the busy flag set (navigation is expected to
unmount the screen). -/
def handleGoogleSignIn (result : GoogleSignInResult) : GoogleResult :=
  match result with
  | GoogleSignInResult.ok => { errorMsg := none, isLoading := true }
  | GoogleSignInResult.err =>
    { errorMsg := some "Failed to sign in with Google. Please try again."
      isLoading := false }

/-! ## Storage lemmas -/

/-- After `removeItem k`, looking up `k` yields nothing. -/
theorem Storage.getItem_removeItem_self (s : Storage) (k : String) :
    (s.removeItem k).getItem k = none := by
  induction s with
  | nil => rfl
  | cons p rest ih =>
    obtain ⟨k', v⟩ := p
    by_cases h : k' = k <;> simp [Storage.removeItem, Storage.getItem, h, ih]

/-- `removeItem k` leaves every other key's value unchanged. -/
theorem Storage.getItem_removeItem_other (s : Storage) (k k' : String) (h : k' ≠ k) :
    (s.removeItem k).getItem k' = s.getItem k' := by
  induction s with
  | nil => rfl
  | cons p rest ih =>
    obtain ⟨k0, v⟩ := p
    by_cases h0 : k0 = k
    · have hkk : k ≠ k' := Ne.symm h
      simp [Storage.removeItem, Storage.getItem, h0, ih, hkk]
    · by_cases h1 : k0 = k' <;>
        simp [Storage.removeItem, Storage.getItem, h0, h1, ih, h]

/-! ## Claims about the redirect resolver -/

/-- C1 (counterexample): the claim that the `postLoginRedirect` key is
absent after every run that read it fails when the stored value is the
empty string: with loading `false` and a user present, the effect reads
the key (the read is in the trace) but, the empty string being falsy,
never removes it, so the empty-string entry is still present afterwards. -/
theorem c1_counterexample_empty_hint :
    StorageOp.read "postLoginRedirect" (some "") ∈
      (loginRedirectEffect { user := some "u", isAdmin := false, loading := false }
        [("postLoginRedirect", "")]).ops ∧
    (loginRedirectEffect { user := some "u", isAdmin := false, loading := false }
        [("postLoginRedirect", "")]).storage.getItem "postLoginRedirect" = some "" := by
  decide

/-- C1 (amended): with loading `false` and a user present, whenever the
value read under `postLoginRedirect` is anything other than the stored
empty string, the key is absent from storage after the effect runs (the
key is removed when a truthy hint was read, and was already absent when
the read returned `none`). -/
theorem c1_hint_key_cleared_unless_empty (status : AuthStatus) (storage : Storage)
    (hload : status.loading = false) (huser : status.user.isSome = true)
    (hval : storage.getItem "postLoginRedirect" ≠ some "") :
    (loginRedirectEffect status storage).storage.getItem "postLoginRedirect" = none := by
  cases hv : storage.getItem "postLoginRedirect" with
  | none => simp [loginRedirectEffect, hload, huser, jsTruthy, hv]
  | some v =>
    have hne : v ≠ "" := by
      intro he
      exact hval (he ▸ hv)
    simp [loginRedirectEffect, hload, huser, jsTruthy, hv, hne,
      Storage.getItem_removeItem_self]

/-- C1 (witness): concrete run of the amended claim with hint `/orders/42`. -/
theorem c1_hint_key_cleared_unless_empty_witness :
    Storage.getItem [("postLoginRedirect", "/orders/42")] "postLoginRedirect" ≠ some "" ∧
    (loginRedirectEffect { user := some "u", isAdmin := true, loading := false }
        [("postLoginRedirect", "/orders/42")]).storage.getItem "postLoginRedirect" = none :=
  ⟨by decide, c1_hint_key_cleared_unless_empty _ _ rfl rfl (by decide)⟩

/-- C2 (counterexample): the claim quantifies over every auth status with
a user present and a non-empty stored hint, but with `loading = true` the
effect returns early: it does not navigate to the hint (it produces no
navigation at all) and leaves the key in place. -/
theorem c2_counterexample_loading :
    (loginRedirectEffect { user := some "u", isAdmin := false, loading := true }
        [("postLoginRedirect", "/orders/42")]).nav ≠
      some { path := "/orders/42", replace := true } ∧
    (loginRedirectEffect { user := some "u", isAdmin := false, loading := true }
        [("postLoginRedirect", "/orders/42")]).nav = none ∧
    (loginRedirectEffect { user := some "u", isAdmin := false, loading := true }
        [("postLoginRedirect", "/orders/42")]).storage.getItem "postLoginRedirect" =
      some "/orders/42" := by
  decide

/-- C2 (amended): with loading `false`, a user present, and a non-empty
hint stored under `postLoginRedirect`, the effect navigates to exactly
that hint with `replace = true`, the hint key is absent afterwards, and
the separately-named `postLoginAction` key is left unchanged. -/
theorem c2_hint_override_and_frame (status : AuthStatus) (storage : Storage) (v : String)
    (hload : status.loading = false) (huser : status.user.isSome = true)
    (hhint : storage.getItem "postLoginRedirect" = some v) (hne : v ≠ "") :
    (loginRedirectEffect status storage).nav = some { path := v, replace := true } ∧
    (loginRedirectEffect status storage).storage.getItem "postLoginRedirect" = none ∧
    (loginRedirectEffect status storage).storage.getItem "postLoginAction" =
      storage.getItem "postLoginAction" := by
  have hact : ("postLoginAction" : String) ≠ "postLoginRedirect" := by decide
  refine ⟨?_, ?_, ?_⟩ <;>
    simp [loginRedirectEffect, hload, huser, jsTruthy, hhint, hne,
      Storage.getItem_removeItem_self,
      Storage.getItem_removeItem_other storage "postLoginRedirect" "postLoginAction" hact]

/-- C2 (witness): concrete run with hint `/orders/42` and a
`postLoginAction` entry, which survives untouched. -/
theorem c2_hint_override_and_frame_witness :
    Storage.getItem [("postLoginRedirect", "/orders/42"), ("postLoginAction", "resume-quiz")]
        "postLoginRedirect" = some "/orders/42" ∧
    (loginRedirectEffect { user := some "u", isAdmin := false, loading := false }
        [("postLoginRedirect", "/orders/42"), ("postLoginAction", "resume-quiz")]).nav =
      some { path := "/orders/42", replace := true } ∧
    (loginRedirectEffect { user := some "u", isAdmin := false, loading := false }
        [("postLoginRedirect", "/orders/42"), ("postLoginAction", "resume-quiz")]).storage.getItem
      "postLoginRedirect" = none ∧
    (loginRedirectEffect { user := some "u", isAdmin := false, loading := false }
        [("postLoginRedirect", "/orders/42"), ("postLoginAction", "resume-quiz")]).storage.getItem
      "postLoginAction" = some "resume-quiz" := by
  have h := c2_hint_override_and_frame { user := some "u", isAdmin := false, loading := false }
    [("postLoginRedirect", "/orders/42"), ("postLoginAction", "resume-quiz")] "/orders/42"
    rfl rfl (by decide) (by decide)
  refine ⟨by decide, h.1, h.2.1, ?_⟩
  rw [h.2.2]
  decide

/-- C3: when auth state is still loading, or when no user is present
and loading is over, the effect produces no navigation and performs no
storage operation at all (empty trace, storage untouched). -/
theorem c3_no_effect_when_loading_or_signed_out (status : AuthStatus) (storage : Storage)
    (h : status.loading = true ∨ (status.user = none ∧ status.loading = false)) :
    (loginRedirectEffect status storage).nav = none ∧
    (loginRedirectEffect status storage).ops = [] ∧
    (loginRedirectEffect status storage).storage = storage := by
  rcases h with h | ⟨hu, hl⟩
  · simp [loginRedirectEffect, h]
  · simp [loginRedirectEffect, hu, hl]

/-- C3 (witness): concrete run with loading set. -/
theorem c3_no_effect_when_loading_or_signed_out_witness :
    (loginRedirectEffect { user := some "u", isAdmin := true, loading := true }
        [("postLoginRedirect", "/x")]).nav = none ∧
    (loginRedirectEffect { user := some "u", isAdmin := true, loading := true }
        [("postLoginRedirect", "/x")]).ops = [] ∧
    (loginRedirectEffect { user := some "u", isAdmin := true, loading := true }
        [("postLoginRedirect", "/x")]).storage = [("postLoginRedirect", "/x")] :=
  c3_no_effect_when_loading_or_signed_out _ _ (Or.inl rfl)

/-- C4: with loading `false`, a user present, and no stored hint, the
effect navigates with `replace = true` to `/admin` for admins and to
`/dashboard` otherwise. -/
theorem c4_default_targets (status : AuthStatus) (storage : Storage)
    (hload : status.loading = false) (huser : status.user.isSome = true)
    (hhint : storage.getItem "postLoginRedirect" = none) :
    (loginRedirectEffect status storage).nav =
      some { path := if status.isAdmin then "/admin" else "/dashboard", replace := true } := by
  cases ha : status.isAdmin <;>
    simp [loginRedirectEffect, hload, huser, jsTruthy, hhint, ha]

/-- C4 (witness): concrete admin run with empty storage. -/
theorem c4_default_targets_witness :
    Storage.getItem ([] : Storage) "postLoginRedirect" = none ∧
    (loginRedirectEffect { user := some "u", isAdmin := true, loading := false }
        ([] : Storage)).nav = some { path := "/admin", replace := true } :=
  ⟨rfl, c4_default_targets _ _ rfl rfl rfl⟩

/-- C9: with loading `false` and a user present, an empty-string value
stored under `postLoginRedirect` is treated like an absent hint: the
effect navigates to the role-based default, performs no remove, and the
empty-string entry is still in storage afterwards. -/
theorem c9_empty_hint_treated_as_absent (status : AuthStatus) (storage : Storage)
    (hload : status.loading = false) (huser : status.user.isSome = true)
    (hhint : storage.getItem "postLoginRedirect" = some "") :
    (loginRedirectEffect status storage).nav =
      some { path := if status.isAdmin then "/admin" else "/dashboard", replace := true } ∧
    (loginRedirectEffect status storage).storage = storage ∧
    StorageOp.remove "postLoginRedirect" ∉ (loginRedirectEffect status storage).ops ∧
    (loginRedirectEffect status storage).storage.getItem "postLoginRedirect" = some "" := by
  cases ha : status.isAdmin <;>
    simp [loginRedirectEffect, hload, huser, jsTruthy, hhint, ha]

/-- C9 (witness): concrete run with an empty-string hint. -/
theorem c9_empty_hint_treated_as_absent_witness :
    Storage.getItem ([("postLoginRedirect", "")] : Storage) "postLoginRedirect" = some "" ∧
    ((loginRedirectEffect { user := some "u", isAdmin := false, loading := false }
        [("postLoginRedirect", "")]).nav = some { path := "/dashboard", replace := true } ∧
      (loginRedirectEffect { user := some "u", isAdmin := false, loading := false }
        [("postLoginRedirect", "")]).storage = [("postLoginRedirect", "")] ∧
      StorageOp.remove "postLoginRedirect" ∉
        (loginRedirectEffect { user := some "u", isAdmin := false, loading := false }
          [("postLoginRedirect", "")]).ops ∧
      (loginRedirectEffect { user := some "u", isAdmin := false, loading := false }
        [("postLoginRedirect", "")]).storage.getItem "postLoginRedirect" = some "") :=
  ⟨by decide, c9_empty_hint_treated_as_absent _ _ rfl rfl (by decide)⟩

/-! ## Claims about the credential submission handler -/

/-- C5: a thrown login error is classified by case-insensitive substring
match on its message, testing `email not confirmed` first, then
`invalid login credentials` (with the message
"Invalid email or password. Please try again."), and everything else —
including a missing message — yields the `Unknown` outcome; on every
thrown path the busy flag is cleared and the handler does not navigate. -/
theorem c5_thrown_error_classification (message : Option String) :
    (onSubmit (LoginResult.err message)).isLoading = false ∧
    (onSubmit (LoginResult.err message)).navigated = false ∧
    (∀ m, message = some m →
      (includesSubstr (lowerCase m) "email not confirmed" = true →
        (onSubmit (LoginResult.err message)).outcome = Outcome.unverified) ∧
      (includesSubstr (lowerCase m) "email not confirmed" = false →
        includesSubstr (lowerCase m) "invalid login credentials" = true →
        (onSubmit (LoginResult.err message)).outcome = Outcome.badCredentials ∧
        (onSubmit (LoginResult.err message)).errorMsg =
          some "Invalid email or password. Please try again.") ∧
      (includesSubstr (lowerCase m) "email not confirmed" = false →
        includesSubstr (lowerCase m) "invalid login credentials" = false →
        (onSubmit (LoginResult.err message)).outcome = Outcome.unknown)) ∧
    (message = none → (onSubmit (LoginResult.err message)).outcome = Outcome.unknown) := by
  refine ⟨?_, ?_, ?_, ?_⟩
  · cases hc : classifyLoginError message <;> simp [onSubmit, hc]
  · cases hc : classifyLoginError message <;> simp [onSubmit, hc]
  · rintro m rfl
    refine ⟨?_, ?_, ?_⟩
    · intro h1
      simp [onSubmit, classifyLoginError, h1]
    · intro h1 h2
      simp [onSubmit, classifyLoginError, h1, h2]
    · intro h1 h2
      simp [onSubmit, classifyLoginError, h1, h2]
  · rintro rfl
    simp [onSubmit, classifyLoginError]

/-- C5 (witness): the thrown message `Invalid login credentials` is
classified as `BadCredentials` with the matching inline message and a
cleared busy flag. -/
theorem c5_thrown_error_classification_witness :
    includesSubstr (lowerCase "Invalid login credentials") "email not confirmed" = false ∧
    includesSubstr (lowerCase "Invalid login credentials") "invalid login credentials" = true ∧
    (onSubmit (LoginResult.err (some "Invalid login credentials"))).outcome =
      Outcome.badCredentials ∧
    (onSubmit (LoginResult.err (some "Invalid login credentials"))).errorMsg =
      some "Invalid email or password. Please try again." ∧
    (onSubmit (LoginResult.err (some "Invalid login credentials"))).isLoading = false :=
  have h := c5_thrown_error_classification (some "Invalid login credentials")
  have hb := (h.2.2.1 "Invalid login credentials" rfl).2.1 (by decide) (by decide)
  ⟨by decide, by decide, hb.1, hb.2, h.1⟩

/-- C6: a `false` return from `login` without a thrown error yields the
`Rejected` outcome with the exact message
"Login failed. Please check your credentials.", and both the outcome and
the message differ from those of a thrown `Invalid login credentials`
error. -/
theorem c6_rejected_distinct_from_bad_credentials :
    (onSubmit (LoginResult.ok false)).outcome = Outcome.rejected ∧
    (onSubmit (LoginResult.ok false)).errorMsg =
      some "Login failed. Please check your credentials." ∧
    (onSubmit (LoginResult.err (some "Invalid login credentials"))).outcome =
      Outcome.badCredentials ∧
    (onSubmit (LoginResult.ok false)).outcome ≠
      (onSubmit (LoginResult.err (some "Invalid login credentials"))).outcome ∧
    (onSubmit (LoginResult.ok false)).errorMsg ≠
      (onSubmit (LoginResult.err (some "Invalid login credentials"))).errorMsg := by
  decide

/-- C7: the `finally` block clears the busy flag on every path of
`onSubmit` — a `true` return, a `false` return, or any thrown error. -/
theorem c7_busy_flag_always_cleared (r : LoginResult) :
    (onSubmit r).isLoading = false := by
  cases r with
  | ok b => cases b <;> rfl
  | err m => cases hc : classifyLoginError m <;> simp [onSubmit, hc]

/-- C7 (witness): concrete runs on all three kinds of path. -/
theorem c7_busy_flag_always_cleared_witness :
    (onSubmit (LoginResult.ok true)).isLoading = false ∧
    (onSubmit (LoginResult.ok false)).isLoading = false ∧
    (onSubmit (LoginResult.err (some "boom"))).isLoading = false :=
  ⟨c7_busy_flag_always_cleared (LoginResult.ok true),
    c7_busy_flag_always_cleared (LoginResult.ok false),
    c7_busy_flag_always_cleared (LoginResult.err (some "boom"))⟩

/-! ## Claim about the Google sign-in trigger -/

/-- C8: when `signInWithGoogle` throws, the handler shows the generic
failure message and clears the busy flag; when it returns normally, the
busy flag stays set (the handler itself never clears it on success). -/
theorem c8_google_sign_in_busy_flag :
    handleGoogleSignIn GoogleSignInResult.err =
      { errorMsg := some "Failed to sign in with Google. Please try again."
        isLoading := false } ∧
    (handleGoogleSignIn GoogleSignInResult.ok).isLoading = true := by
  decide

/-- C10: a thrown message matching both known phrases is classified as
`Unverified`, because the `email not confirmed` test runs first; the
email-verification message is shown, not the invalid-credentials one. -/
theorem c10_unverified_takes_precedence (m : String)
    (h1 : includesSubstr (lowerCase m) "email not confirmed" = true)
    (h2 : includesSubstr (lowerCase m) "invalid login credentials" = true) :
    (onSubmit (LoginResult.err (some m))).outcome = Outcome.unverified ∧
    (onSubmit (LoginResult.err (some m))).errorMsg =
      some "Please verify your email address by clicking the link sent to your inbox before logging in." := by
  simp [onSubmit, classifyLoginError, h1]

/-- C10 (witness): a concrete message containing both phrases. -/
theorem c10_unverified_takes_precedence_witness :
    includesSubstr (lowerCase "Email not confirmed: Invalid login credentials")
      "email not confirmed" = true ∧
    includesSubstr (lowerCase "Email not confirmed: Invalid login credentials")
      "invalid login credentials" = true ∧
    (onSubmit (LoginResult.err
        (some "Email not confirmed: Invalid login credentials"))).outcome =
      Outcome.unverified :=
  ⟨by decide, by decide,
    (c10_unverified_takes_precedence "Email not confirmed: Invalid login credentials"
      (by decide) (by decide)).1⟩

end Login
